import Mathlib

/-!
Shallow embedding of the loan-workflow core of the `django_local_library`
catalog app (`src/catalog/views.py`), together with the parts of the data
model and form layer the views depend on.

Dates are modelled as day numbers (`Nat`); `today` is passed explicitly.
The persisted state is a `Store`, an association list from primary keys to
`BookInstance` records; Django's `save()` is an in-place update of the row
with the instance's key.
-/

namespace Catalog

/-- Modelled from the spec: `catalog/models.py` is not under `src/`.  The
spec's status enum for a `BookInstance` is `Maintenance`, `OnLoan`,
`Available`, `Reserved`; `views.py` refers to `OnLoan` by the code `"o"`
and to `Available` by the code `"a"`. -/
inductive LoanStatus
  | maintenance
  | onLoan
  | available
  | reserved
deriving DecidableEq, Repr

/-- Modelled from the spec: `catalog/models.py` is not under `src/`.  A
`BookInstance` carries a reference to a book, an imprint string, a nullable
due-back date, a status, and a nullable borrower reference. -/
structure BookInstance where
  book : Nat
  imprint : String
  due_back : Option Nat
  status : LoanStatus
  borrower : Option Nat
deriving DecidableEq, Repr

/-- The BookInstance store: rows keyed by primary key. -/
abbrev Store := List (Nat × BookInstance)

/-- `get_object_or_404(BookInstance, pk=pk)`: the row with key `pk`,
or `none` (which the view surfaces as HTTP 404). -/
def Store.get : Store → Nat → Option BookInstance
  | [], _ => none
  | (k, bi) :: t, pk => if k = pk then some bi else Store.get t pk

/-- `book_instance.save()`: write the updated instance back to its row.
Rows with other keys are untouched; a key absent from the store is
unaffected (the views only ever save an instance previously fetched). -/
def Store.save : Store → Nat → BookInstance → Store
  | [], _, _ => []
  | (k, b) :: t, pk, bi =>
    (if k = pk then (pk, bi) else (k, b)) :: Store.save t pk bi

/-- HTTP request method as the views distinguish it: `POST` versus
everything else (the `else` branch of `if request.method == "POST"`). -/
inductive Method
  | get
  | post
deriving DecidableEq, Repr

/-- Validation outcome of the renewal form's due-back date. -/
inductive RenewError
  | dateInPast
  | dateTooFarInFuture
deriving DecidableEq, Repr

/-- Modelled from the spec: `catalog/forms.py` (`RenewBookModelForm` and its
`clean_due_back`) is not under `src/`.  The spec's validation rule is
`today < proposed_due_date <= today + 4 weeks`, failing with
`ValidationError("date in past")` when `proposed_due_date <= today` and with
`ValidationError("date too far in future")` when
`proposed_due_date > today + 4 weeks`. -/
def clean_due_back (today d : Nat) : Except RenewError Nat :=
  if d ≤ today then Except.error RenewError.dateInPast
  else if today + 4 * 7 < d then Except.error RenewError.dateTooFarInFuture
  else Except.ok d

/-- Modelled from the spec: `catalog/forms.py` (`ReturnBookModelForm`) is not
under `src/`.  The spec says Return performs "no field-level validation (the
return action accepts no user-supplied data in the current design)", so a
bound return form always validates. -/
def returnFormValidates : Bool := true

/-- State of the renewal form shown on the renewal page: either the unbound
default form carrying an initial due-back proposal, or a bound form that
failed validation. -/
inductive RenewFormState
  | initial (due_back : Nat)
  | boundInvalid (due_back : Nat) (e : RenewError)
deriving DecidableEq, Repr

/-- Redirect targets used by the views (`reverse("all-borrowed")`). -/
inductive Url
  | allBorrowed
deriving DecidableEq, Repr

/-- The observable outcome of a view call. -/
inductive Response
  | notFound
  | redirect (target : Url)
  | renderRenewPage (form : RenewFormState)
  | renderReturnPage
deriving DecidableEq, Repr

/-- `renew_book_librarian(request, pk)` from `src/catalog/views.py`
(lines 95-127): fetch the instance or 404; on POST bind the renewal form,
and if it validates set `due_back` to the cleaned date, save, and redirect
to the all-borrowed listing, otherwise re-render the page with the bound
form; on any other method render the page with a default form proposing
`today + 3 weeks`. -/
def renew_book_librarian (today : Nat) (s : Store) (pk : Nat)
    (method : Method) (posted_due_back : Nat) : Store × Response :=
  match s.get pk with
  | none => (s, Response.notFound)
  | some book_instance =>
    match method with
    | Method.post =>
      match clean_due_back today posted_due_back with
      | Except.ok d =>
        (s.save pk { book_instance with due_back := some d },
         Response.redirect Url.allBorrowed)
      | Except.error e =>
        (s, Response.renderRenewPage (RenewFormState.boundInvalid posted_due_back e))
    | Method.get =>
      (s, Response.renderRenewPage (RenewFormState.initial (today + 3 * 7)))

/-- `return_book_librarian(request, pk)` from `src/catalog/views.py`
(lines 130-163): fetch the instance or 404; on POST bind the return form,
and if it validates set `due_back = None`, `borrower = None`,
`status = "a"` and save; either way the POST branch ends in a redirect to
the all-borrowed listing.  On any other method render the page with an
unbound form.  `formValid` is the outcome of `form.is_valid()` on the
bound `ReturnBookModelForm`. -/
def return_book_librarian (s : Store) (pk : Nat)
    (method : Method) (formValid : Bool) : Store × Response :=
  match s.get pk with
  | none => (s, Response.notFound)
  | some book_instance =>
    match method with
    | Method.post =>
      (if formValid then
        s.save pk
          { book_instance with
              due_back := none, borrower := none, status := LoanStatus.available }
      else s,
       Response.redirect Url.allBorrowed)
    | Method.get => (s, Response.renderReturnPage)

/-- The Return operation as actually reachable: a POST whose bound form
validates as `ReturnBookModelForm` does (spec: always). -/
def returnOp (s : Store) (pk : Nat) : Store × Response :=
  return_book_librarian s pk Method.post returnFormValidates

/-- The session state the `index` view touches: the `num_visits` key
(`none` when the key is absent). -/
structure Session where
  num_visits : Option Nat
deriving DecidableEq, Repr

/-- `index(request)` from `src/catalog/views.py` (lines 15-47), restricted
to its session interaction: read `num_visits` with default 0, add one,
store the sum back in the session, and surface it in the rendered context.
Returns the updated session and the surfaced count. -/
def index (session : Session) : Session × Nat :=
  let num_visits := session.num_visits.getD 0 + 1
  ({ num_visits := some num_visits }, num_visits)

/-- Ordering on nullable due-back dates used by `order_by("due_back")`:
null sorts first, dates ascend. -/
def dueLE (a b : Option Nat) : Bool :=
  match a, b with
  | none, _ => true
  | some _, none => false
  | some x, some y => decide (x ≤ y)

/-- `order_by("due_back")` comparison on instances. -/
def dueBackLE (a b : BookInstance) : Prop :=
  dueLE a.due_back b.due_back = true

instance : DecidableRel dueBackLE := fun a b =>
  inferInstanceAs (Decidable (dueLE a.due_back b.due_back = true))

theorem dueLE_total (a b : Option Nat) : dueLE a b = true ∨ dueLE b a = true := by
  cases a <;> cases b <;> simp [dueLE]
  exact Nat.le_total _ _

theorem dueLE_trans {a b c : Option Nat}
    (h1 : dueLE a b = true) (h2 : dueLE b c = true) : dueLE a c = true := by
  cases a <;> cases b <;> cases c <;> simp_all [dueLE]
  omega

instance : IsTotal BookInstance dueBackLE :=
  ⟨fun a b => dueLE_total a.due_back b.due_back⟩

instance : IsTrans BookInstance dueBackLE :=
  ⟨fun _ _ _ h1 h2 => dueLE_trans h1 h2⟩

/-- `LoanedBooksListView.get_queryset` from `src/catalog/views.py`
(lines 76-77): all instances with status `"o"`, ordered by `due_back`. -/
def LoanedBooksListView.get_queryset (s : Store) : List BookInstance :=
  List.insertionSort dueBackLE
    ((s.map Prod.snd).filter (fun bi => decide (bi.status = LoanStatus.onLoan)))

/-- `LoanedBooksByUserListView.get_queryset` from `src/catalog/views.py`
(lines 87-92): instances borrowed by the current user, then filtered to
status `"o"`, ordered by `due_back`. -/
def LoanedBooksByUserListView.get_queryset (user : Nat) (s : Store) :
    List BookInstance :=
  List.insertionSort dueBackLE
    (((s.map Prod.snd).filter (fun bi => decide (bi.borrower = some user))).filter
      (fun bi => decide (bi.status = LoanStatus.onLoan)))

/-- The spec's data invariant on a single instance:
`(status == OnLoan) == (due_back != null and borrower != null)`. -/
def loanInvariant (bi : BookInstance) : Bool :=
  decide ((bi.status = LoanStatus.onLoan) ↔
    (bi.due_back ≠ none ∧ bi.borrower ≠ none))

/-- A sample on-loan instance used to instantiate theorems. -/
def sampleLoan : BookInstance :=
  { book := 1, imprint := "x", due_back := some 10,
    status := LoanStatus.onLoan, borrower := some 2 }

/-- A one-row store holding `sampleLoan` at key 1. -/
def store1 : Store := [(1, sampleLoan)]

theorem Store.get_cons_pos {k pk : Nat} (hk : k = pk) (b : BookInstance)
    (t : Store) : Store.get ((k, b) :: t) pk = some b := by
  show (if k = pk then some b else Store.get t pk) = some b
  rw [if_pos hk]

theorem Store.get_cons_neg {k pk : Nat} (hk : ¬ k = pk) (b : BookInstance)
    (t : Store) : Store.get ((k, b) :: t) pk = Store.get t pk := by
  show (if k = pk then some b else Store.get t pk) = Store.get t pk
  rw [if_neg hk]

theorem Store.save_cons_pos {k pk : Nat} (hk : k = pk) (b bi : BookInstance)
    (t : Store) :
    Store.save ((k, b) :: t) pk bi = (pk, bi) :: Store.save t pk bi := by
  show (if k = pk then (pk, bi) else (k, b)) :: Store.save t pk bi
      = (pk, bi) :: Store.save t pk bi
  rw [if_pos hk]

theorem Store.save_cons_neg {k pk : Nat} (hk : ¬ k = pk) (b bi : BookInstance)
    (t : Store) :
    Store.save ((k, b) :: t) pk bi = (k, b) :: Store.save t pk bi := by
  show (if k = pk then (pk, bi) else (k, b)) :: Store.save t pk bi
      = (k, b) :: Store.save t pk bi
  rw [if_neg hk]

theorem Store.get_save {s : Store} {pk : Nat} {bi : BookInstance}
    (h : s.get pk = some bi) (bi' : BookInstance) :
    (s.save pk bi').get pk = some bi' := by
  induction s with
  | nil => simp [Store.get] at h
  | cons p t ih =>
    obtain ⟨k, b⟩ := p
    by_cases hk : k = pk
    · rw [Store.save_cons_pos hk, Store.get_cons_pos rfl]
    · rw [Store.save_cons_neg hk, Store.get_cons_neg hk]
      rw [Store.get_cons_neg hk] at h
      exact ih h

theorem Store.save_save (s : Store) (pk : Nat) (bi : BookInstance) :
    (s.save pk bi).save pk bi = s.save pk bi := by
  induction s with
  | nil => rfl
  | cons p t ih =>
    obtain ⟨k, b⟩ := p
    by_cases hk : k = pk
    · rw [Store.save_cons_pos hk, Store.save_cons_pos rfl, ih]
    · rw [Store.save_cons_neg hk, Store.save_cons_neg hk, ih]

end Catalog

namespace Catalog

/-- C4: for every existing BookInstance, regardless of its prior status,
Return succeeds (a redirect to the all-borrowed listing), sets
`status = Available`, `due_back = null`, `borrower = null`, and persists the
instance; no check of the prior status is made (`bi` is arbitrary). -/
theorem return_resets_instance (s : Store) (pk : Nat) (bi : BookInstance)
    (hget : s.get pk = some bi) :
    returnOp s pk =
      (s.save pk
        { bi with due_back := none, borrower := none, status := LoanStatus.available },
       Response.redirect Url.allBorrowed) ∧
    (returnOp s pk).1.get pk =
      some { bi with due_back := none, borrower := none,
                     status := LoanStatus.available } := by
  refine ⟨by simp [returnOp, return_book_librarian, returnFormValidates, hget], ?_⟩
  simp only [returnOp, return_book_librarian, returnFormValidates, hget, if_pos]
  exact Store.get_save hget _

theorem return_resets_instance_witness :
    store1.get 1 = some sampleLoan ∧
    (returnOp store1 1 =
      (store1.save 1
        { sampleLoan with due_back := none, borrower := none,
                          status := LoanStatus.available },
       Response.redirect Url.allBorrowed) ∧
     (returnOp store1 1).1.get 1 =
      some { sampleLoan with due_back := none, borrower := none,
                             status := LoanStatus.available }) :=
  ⟨rfl, return_resets_instance store1 1 sampleLoan rfl⟩

/-- C5: Return is idempotent: a second Return on the same key leaves the
store exactly as after the first and still succeeds with the same redirect;
the terminal state has `status = Available`, `due_back = null`,
`borrower = null`. -/
theorem return_idempotent (s : Store) (pk : Nat) (bi : BookInstance)
    (hget : s.get pk = some bi) :
    (returnOp (returnOp s pk).1 pk).1 = (returnOp s pk).1 ∧
    (returnOp (returnOp s pk).1 pk).2 = Response.redirect Url.allBorrowed ∧
    (returnOp s pk).1.get pk =
      some { bi with due_back := none, borrower := none,
                     status := LoanStatus.available } := by
  have h1 : returnOp s pk =
      (s.save pk
        { bi with due_back := none, borrower := none, status := LoanStatus.available },
       Response.redirect Url.allBorrowed) := by
    simp [returnOp, return_book_librarian, returnFormValidates, hget]
  have hget1 : (s.save pk
      { bi with due_back := none, borrower := none,
                status := LoanStatus.available }).get pk =
      some { bi with due_back := none, borrower := none,
                     status := LoanStatus.available } :=
    Store.get_save hget _
  have h2 : returnOp (s.save pk
      { bi with due_back := none, borrower := none,
                status := LoanStatus.available }) pk =
      (s.save pk
        { bi with due_back := none, borrower := none, status := LoanStatus.available },
       Response.redirect Url.allBorrowed) := by
    simp [returnOp, return_book_librarian, returnFormValidates, hget1,
      Store.save_save]
  rw [h1]
  exact ⟨by rw [h2], by rw [h2], hget1⟩

theorem return_idempotent_witness :
    store1.get 1 = some sampleLoan ∧
    ((returnOp (returnOp store1 1).1 1).1 = (returnOp store1 1).1 ∧
     (returnOp (returnOp store1 1).1 1).2 = Response.redirect Url.allBorrowed ∧
     (returnOp store1 1).1.get 1 =
      some { sampleLoan with due_back := none, borrower := none,
                             status := LoanStatus.available }) :=
  ⟨rfl, return_idempotent store1 1 sampleLoan rfl⟩

/-- C7: a POST to Return whose bound form fails validation leaves the store
(and hence the instance's status, due-back and borrower fields) unchanged,
yet still terminates with the same redirect to the all-borrowed listing as
a successful Return; the failure is never surfaced. -/
theorem return_invalid_form_redirects (s : Store) (pk : Nat) (bi : BookInstance)
    (hget : s.get pk = some bi) :
    return_book_librarian s pk Method.post false =
      (s, Response.redirect Url.allBorrowed) := by
  simp [return_book_librarian, hget]

theorem return_invalid_form_redirects_witness :
    store1.get 1 = some sampleLoan ∧
    return_book_librarian store1 1 Method.post false =
      (store1, Response.redirect Url.allBorrowed) :=
  ⟨rfl, return_invalid_form_redirects store1 1 sampleLoan rfl⟩

/-- C9: for a key with no existing BookInstance, both Renew and Return fail
with NotFound (HTTP 404) and leave the store unmodified, whatever the
method, posted date or form validity. -/
theorem missing_key_not_found (today : Nat) (s : Store) (pk : Nat)
    (m : Method) (d : Nat) (fv : Bool) (hget : s.get pk = none) :
    renew_book_librarian today s pk m d = (s, Response.notFound) ∧
    return_book_librarian s pk m fv = (s, Response.notFound) := by
  constructor <;> simp [renew_book_librarian, return_book_librarian, hget]

theorem missing_key_not_found_witness :
    Store.get [] 0 = none ∧
    (renew_book_librarian 0 [] 0 Method.post 5 = ([], Response.notFound) ∧
     return_book_librarian [] 0 Method.post true = ([], Response.notFound)) :=
  ⟨rfl, missing_key_not_found 0 [] 0 Method.post 5 true rfl⟩

/-- C10: when no proposed due date is supplied (a non-POST request on an
existing instance), the default renewal form proposes exactly
`today + 3 weeks` (21 days). -/
theorem renew_default_proposal (today : Nat) (s : Store) (pk : Nat)
    (bi : BookInstance) (d : Nat) (hget : s.get pk = some bi) :
    renew_book_librarian today s pk Method.get d =
      (s, Response.renderRenewPage (RenewFormState.initial (today + 3 * 7))) := by
  simp [renew_book_librarian, hget]

theorem renew_default_proposal_witness :
    store1.get 1 = some sampleLoan ∧
    renew_book_librarian 100 store1 1 Method.get 0 =
      (store1, Response.renderRenewPage (RenewFormState.initial 121)) :=
  ⟨rfl, renew_default_proposal 100 store1 1 sampleLoan 0 rfl⟩

/-- C2: on an existing on-loan instance, Renew fails with the
date-in-past validation error when the proposed date is at most today,
fails with the too-far-in-future error when it exceeds today + 4 weeks,
and the boundary is inclusive: today + 28 days succeeds (redirect) while
today + 29 days fails; failed validation leaves the store unchanged. -/
theorem renew_validation (today : Nat) (s : Store) (pk : Nat)
    (bi : BookInstance) (d : Nat) (hget : s.get pk = some bi)
    (_hst : bi.status = LoanStatus.onLoan) :
    (d ≤ today →
      renew_book_librarian today s pk Method.post d =
        (s, Response.renderRenewPage
          (RenewFormState.boundInvalid d RenewError.dateInPast))) ∧
    (today + 4 * 7 < d →
      renew_book_librarian today s pk Method.post d =
        (s, Response.renderRenewPage
          (RenewFormState.boundInvalid d RenewError.dateTooFarInFuture))) ∧
    (renew_book_librarian today s pk Method.post (today + 28)).2 =
      Response.redirect Url.allBorrowed ∧
    renew_book_librarian today s pk Method.post (today + 29) =
      (s, Response.renderRenewPage
        (RenewFormState.boundInvalid (today + 29)
          RenewError.dateTooFarInFuture)) := by
  refine ⟨?_, ?_, ?_, ?_⟩
  · intro hd
    have hcd : clean_due_back today d = Except.error RenewError.dateInPast := by
      unfold clean_due_back
      rw [if_pos hd]
    simp [renew_book_librarian, hget, hcd]
  · intro hd
    have hcd : clean_due_back today d =
        Except.error RenewError.dateTooFarInFuture := by
      unfold clean_due_back
      rw [if_neg (by omega), if_pos hd]
    simp [renew_book_librarian, hget, hcd]
  · have hcd : clean_due_back today (today + 28) = Except.ok (today + 28) := by
      unfold clean_due_back
      rw [if_neg (by omega), if_neg (by omega)]
    simp [renew_book_librarian, hget, hcd]
  · have hcd : clean_due_back today (today + 29) =
        Except.error RenewError.dateTooFarInFuture := by
      unfold clean_due_back
      rw [if_neg (by omega), if_pos (by omega)]
    simp [renew_book_librarian, hget, hcd]

theorem renew_validation_witness :
    store1.get 1 = some sampleLoan ∧
    sampleLoan.status = LoanStatus.onLoan ∧
    ((0 ≤ 5 →
      renew_book_librarian 5 store1 1 Method.post 0 =
        (store1, Response.renderRenewPage
          (RenewFormState.boundInvalid 0 RenewError.dateInPast))) ∧
     (5 + 4 * 7 < 0 →
      renew_book_librarian 5 store1 1 Method.post 0 =
        (store1, Response.renderRenewPage
          (RenewFormState.boundInvalid 0 RenewError.dateTooFarInFuture))) ∧
     (renew_book_librarian 5 store1 1 Method.post (5 + 28)).2 =
      Response.redirect Url.allBorrowed ∧
     renew_book_librarian 5 store1 1 Method.post (5 + 29) =
      (store1, Response.renderRenewPage
        (RenewFormState.boundInvalid (5 + 29)
          RenewError.dateTooFarInFuture))) :=
  ⟨rfl, rfl, renew_validation 5 store1 1 sampleLoan 0 rfl rfl⟩

/-- C3: a successful Renew on an existing on-loan instance with a date in
the valid window sets `due_back` to the proposed date, persists exactly
that updated instance (readable back from the store), redirects, and leaves
the status and borrower fields of the updated instance unchanged. -/
theorem renew_success_effect (today : Nat) (s : Store) (pk : Nat)
    (bi : BookInstance) (d : Nat) (hget : s.get pk = some bi)
    (_hst : bi.status = LoanStatus.onLoan)
    (h1 : today < d) (h2 : d ≤ today + 4 * 7) :
    renew_book_librarian today s pk Method.post d =
      (s.save pk { bi with due_back := some d },
       Response.redirect Url.allBorrowed) ∧
    (renew_book_librarian today s pk Method.post d).1.get pk =
      some { bi with due_back := some d } ∧
    ({ bi with due_back := some d }).status = bi.status ∧
    ({ bi with due_back := some d }).borrower = bi.borrower := by
  have hcd : clean_due_back today d = Except.ok d := by
    unfold clean_due_back
    rw [if_neg (by omega), if_neg (by omega)]
  have hmain : renew_book_librarian today s pk Method.post d =
      (s.save pk { bi with due_back := some d },
       Response.redirect Url.allBorrowed) := by
    simp [renew_book_librarian, hget, hcd]
  refine ⟨hmain, ?_, rfl, rfl⟩
  rw [hmain]
  exact Store.get_save hget _

theorem renew_success_effect_witness :
    store1.get 1 = some sampleLoan ∧
    sampleLoan.status = LoanStatus.onLoan ∧
    0 < 7 ∧ 7 ≤ 0 + 4 * 7 ∧
    (renew_book_librarian 0 store1 1 Method.post 7 =
      (store1.save 1 { sampleLoan with due_back := some 7 },
       Response.redirect Url.allBorrowed) ∧
     (renew_book_librarian 0 store1 1 Method.post 7).1.get 1 =
      some { sampleLoan with due_back := some 7 } ∧
     ({ sampleLoan with due_back := some 7 }).status = sampleLoan.status ∧
     ({ sampleLoan with due_back := some 7 }).borrower = sampleLoan.borrower) :=
  ⟨rfl, rfl, by omega, by omega,
   renew_success_effect 0 store1 1 sampleLoan 7 rfl rfl (by omega) (by omega)⟩

/-- An instance whose fields violate the loan invariant: on loan but with
no borrower and no due date. -/
def unborrowedLoan : BookInstance :=
  { book := 0, imprint := "y", due_back := none,
    status := LoanStatus.onLoan, borrower := none }

/-- C1 counterexample: Renew checks neither the instance's status nor its
borrower, so renewing an instance that is on loan with no borrower
succeeds (redirect) yet persists an instance on which
`(status == OnLoan) == (due_back != null and borrower != null)` is false. -/
theorem renew_can_violate_invariant :
    (renew_book_librarian 0 [(1, unborrowedLoan)] 1 Method.post 7).2 =
      Response.redirect Url.allBorrowed ∧
    ((renew_book_librarian 0 [(1, unborrowedLoan)] 1 Method.post 7).1.get 1).map
      loanInvariant = some false := by
  decide

/-- C1 (amended): after any successful Return the persisted instance
satisfies the invariant unconditionally; after a successful Renew the
persisted instance satisfies it provided the instance had status OnLoan
(the spec's Renew precondition) and satisfied the invariant beforehand. -/
theorem invariant_after_renew_and_return (today : Nat) (s : Store) (pk : Nat)
    (bi : BookInstance) (d : Nat) (hget : s.get pk = some bi) :
    (bi.status = LoanStatus.onLoan → loanInvariant bi = true →
      (renew_book_librarian today s pk Method.post d).2 =
        Response.redirect Url.allBorrowed →
      ((renew_book_librarian today s pk Method.post d).1.get pk).map
        loanInvariant = some true) ∧
    ((returnOp s pk).1.get pk).map loanInvariant = some true := by
  constructor
  · intro hst hinv hsucc
    have hinv2 : bi.status = LoanStatus.onLoan ↔
        (bi.due_back ≠ none ∧ bi.borrower ≠ none) :=
      of_decide_eq_true (show decide (bi.status = LoanStatus.onLoan ↔
        (bi.due_back ≠ none ∧ bi.borrower ≠ none)) = true from hinv)
    have hb : bi.borrower ≠ none := (hinv2.mp hst).2
    cases hcd : clean_due_back today d with
    | error e =>
      have : renew_book_librarian today s pk Method.post d =
          (s, Response.renderRenewPage (RenewFormState.boundInvalid d e)) := by
        simp [renew_book_librarian, hget, hcd]
      rw [this] at hsucc
      simp at hsucc
    | ok d2 =>
      have hrun : renew_book_librarian today s pk Method.post d =
          (s.save pk { bi with due_back := some d2 },
           Response.redirect Url.allBorrowed) := by
        simp [renew_book_librarian, hget, hcd]
      rw [hrun]
      have := Store.get_save hget { bi with due_back := some d2 }
      simp only [this]
      simp [loanInvariant, hst, hb]
  · have hrun : returnOp s pk =
        (s.save pk
          { bi with due_back := none, borrower := none,
                    status := LoanStatus.available },
         Response.redirect Url.allBorrowed) := by
      simp [returnOp, return_book_librarian, returnFormValidates, hget]
    rw [hrun]
    have := Store.get_save hget
      { bi with due_back := none, borrower := none,
                status := LoanStatus.available }
    simp only [this]
    simp [loanInvariant]

theorem invariant_after_renew_and_return_witness :
    store1.get 1 = some sampleLoan ∧
    ((sampleLoan.status = LoanStatus.onLoan → loanInvariant sampleLoan = true →
      (renew_book_librarian 0 store1 1 Method.post 7).2 =
        Response.redirect Url.allBorrowed →
      ((renew_book_librarian 0 store1 1 Method.post 7).1.get 1).map
        loanInvariant = some true) ∧
     ((returnOp store1 1).1.get 1).map loanInvariant = some true) :=
  ⟨rfl, invariant_after_renew_and_return 0 store1 1 sampleLoan 7 rfl⟩

/-- C8: the all-borrowed listing is exactly the on-loan instances of the
store sorted ascending by due-back date, and the per-borrower listing is
exactly (a permutation of) the restriction of the all-borrowed listing to
the given borrower, also sorted ascending by due-back date. -/
theorem loaned_lists_exact (s : Store) (user : Nat) :
    List.Sorted dueBackLE (LoanedBooksListView.get_queryset s) ∧
    (LoanedBooksListView.get_queryset s).Perm
      ((s.map Prod.snd).filter (fun bi => decide (bi.status = LoanStatus.onLoan))) ∧
    List.Sorted dueBackLE (LoanedBooksByUserListView.get_queryset user s) ∧
    (LoanedBooksByUserListView.get_queryset user s).Perm
      ((LoanedBooksListView.get_queryset s).filter
        (fun bi => decide (bi.borrower = some user))) := by
  refine ⟨List.sorted_insertionSort _ _, List.perm_insertionSort _ _,
    List.sorted_insertionSort _ _, ?_⟩
  have h1 : (LoanedBooksByUserListView.get_queryset user s).Perm
      (((s.map Prod.snd).filter (fun bi => decide (bi.borrower = some user))).filter
        (fun bi => decide (bi.status = LoanStatus.onLoan))) :=
    List.perm_insertionSort _ _
  have h2 : ((LoanedBooksListView.get_queryset s).filter
      (fun bi => decide (bi.borrower = some user))).Perm
      (((s.map Prod.snd).filter (fun bi => decide (bi.status = LoanStatus.onLoan))).filter
        (fun bi => decide (bi.borrower = some user))) :=
    (List.perm_insertionSort _ _).filter _
  have h3 : (((s.map Prod.snd).filter (fun bi => decide (bi.borrower = some user))).filter
        (fun bi => decide (bi.status = LoanStatus.onLoan)))
      = (((s.map Prod.snd).filter (fun bi => decide (bi.status = LoanStatus.onLoan))).filter
        (fun bi => decide (bi.borrower = some user))) := by
    rw [List.filter_filter, List.filter_filter]
    apply List.filter_congr
    intro a _
    exact Bool.and_comm _ _
  have h4 : (LoanedBooksByUserListView.get_queryset user s).Perm
      (((s.map Prod.snd).filter (fun bi => decide (bi.status = LoanStatus.onLoan))).filter
        (fun bi => decide (bi.borrower = some user))) := h3 ▸ h1
  exact h4.trans h2.symm

/-- C6 counterexample: the index view does modify the session: on a session
whose visit counter is 5, the session after the call differs from the
session before it. -/
theorem index_modifies_session :
    ¬ ((index { num_visits := some 5 }).1 = { num_visits := some 5 }) := by
  decide

/-- C6 (amended): the index view itself increments the session visit
counter: it reads `num_visits` with default 0, adds one, writes the sum
back into the session, and surfaces the incremented value; the session
counter is not read-only to this view. -/
theorem index_increments_session (session : Session) :
    (index session).1 = { num_visits := some (session.num_visits.getD 0 + 1) } ∧
    (index session).2 = session.num_visits.getD 0 + 1 :=
  ⟨rfl, rfl⟩

end Catalog
